import Mathlib

/-!
Verification development for the device-identity binding and verification
subsystem (MAC capture, checksum, binding registry, audit log, and the
request-time enforcement gate).

The definitions below are a shallow embedding of the Python sources:

* `app/core/mac_sniffer.py` — checksum generation, MAC verification, the
  sysfs capture strategy, and the serverless environment-fingerprint
  fallback (SHA-256 is implemented concretely, byte for byte as in
  `hashlib.sha256`, so digests are executable).
* `app/core/mac_manager.py` — the manager verification flow with its
  audit-log entry construction, and the binding-registry operations
  `capture_and_bind_mac` / `deactivate_binding` over a list-modelled row
  store.
* `app/middleware/mac_verification.py` — the sensitive-route set and the
  middleware dispatch state machine.

Python strings are modelled as Lean `String`; `str.upper()` / `str.lower()`
are modelled on their ASCII action (all identifiers handled by the
subsystem are ASCII hex / punctuation). External store calls that may
raise are modelled by `StoreResult`, with `fault` standing for an
unexpected exception from the store client.
-/

/-! ## SHA-256, exactly as `hashlib.sha256(...).hexdigest()` -/

def M32 : Nat := 4294967296

def rotr32 (n x : Nat) : Nat := ((x >>> n) ||| (x <<< (32 - n))) % M32

def sigma0 (x : Nat) : Nat := (rotr32 7 x) ^^^ (rotr32 18 x) ^^^ (x >>> 3)

def sigma1 (x : Nat) : Nat := (rotr32 17 x) ^^^ (rotr32 19 x) ^^^ (x >>> 10)

def bigSigma0 (x : Nat) : Nat := (rotr32 2 x) ^^^ (rotr32 13 x) ^^^ (rotr32 22 x)

def bigSigma1 (x : Nat) : Nat := (rotr32 6 x) ^^^ (rotr32 11 x) ^^^ (rotr32 25 x)

def chFn (e f g : Nat) : Nat := (e &&& f) ^^^ ((e ^^^ 4294967295) &&& g)

def majFn (a b c : Nat) : Nat := (a &&& b) ^^^ (a &&& c) ^^^ (b &&& c)

def shaK : List Nat :=
  [1116352408, 1899447441, 3049323471, 3921009573, 961987163, 1508970993,
   2453635748, 2870763221, 3624381080, 310598401, 607225278, 1426881987,
   1925078388, 2162078206, 2614888103, 3248222580, 3835390401, 4022224774,
   264347078, 604807628, 770255983, 1249150122, 1555081692, 1996064986,
   2554220882, 2821834349, 2952996808, 3210313671, 3336571891, 3584528711,
   113926993, 338241895, 666307205, 773529912, 1294757372, 1396182291,
   1695183700, 1986661051, 2177026350, 2456956037, 2730485921, 2820302411,
   3259730800, 3345764771, 3516065817, 3600352804, 4094571909, 275423344,
   430227734, 506948616, 659060556, 883997877, 958139571, 1322822218,
   1537002063, 1747873779, 1955562222, 2024104815, 2227730452, 2361852424,
   2428436474, 2756734187, 3204031479, 3329325298]

structure Hash8 where
  a : Nat
  b : Nat
  c : Nat
  d : Nat
  e : Nat
  f : Nat
  g : Nat
  h : Nat
deriving DecidableEq

def shaH0 : Hash8 :=
  ⟨1779033703, 3144134277, 1013904242, 2773480762,
   1359893119, 2600822924, 528734635, 1541459225⟩

def padBytes (msg : List Nat) : List Nat :=
  let len := msg.length
  let k := (119 - len % 64) % 64
  let bitLen := 8 * len
  msg ++ [128] ++ List.replicate k 0 ++
    [bitLen >>> 56 &&& 255, bitLen >>> 48 &&& 255, bitLen >>> 40 &&& 255, bitLen >>> 32 &&& 255,
     bitLen >>> 24 &&& 255, bitLen >>> 16 &&& 255, bitLen >>> 8 &&& 255, bitLen &&& 255]

def bytesToWords : List Nat → List Nat
  | b0 :: b1 :: b2 :: b3 :: rest => (((b0 * 256 + b1) * 256 + b2) * 256 + b3) :: bytesToWords rest
  | _ => []

def extendSchedule : List Nat → Nat → List Nat
  | w, 0 => w
  | w, n + 1 =>
    let i := w.length
    let x := (w.getD (i - 16) 0 + sigma0 (w.getD (i - 15) 0) + w.getD (i - 7) 0 +
              sigma1 (w.getD (i - 2) 0)) % M32
    extendSchedule (w ++ [x]) n

def compressStep (st : Hash8) (kw : Nat × Nat) : Hash8 :=
  let t1 := (st.h + bigSigma1 st.e + chFn st.e st.f st.g + kw.1 + kw.2) % M32
  let t2 := (bigSigma0 st.a + majFn st.a st.b st.c) % M32
  ⟨(t1 + t2) % M32, st.a, st.b, st.c, (st.d + t1) % M32, st.e, st.f, st.g⟩

def add8 (x y : Hash8) : Hash8 :=
  ⟨(x.a + y.a) % M32, (x.b + y.b) % M32, (x.c + y.c) % M32, (x.d + y.d) % M32,
   (x.e + y.e) % M32, (x.f + y.f) % M32, (x.g + y.g) % M32, (x.h + y.h) % M32⟩

def compressBlock (h : Hash8) (block : List Nat) : Hash8 :=
  let w := extendSchedule (bytesToWords block) 48
  add8 h ((shaK.zip w).foldl compressStep h)

def chunks64Aux : Nat → List Nat → List (List Nat)
  | 0, _ => []
  | _ + 1, [] => []
  | n + 1, l => l.take 64 :: chunks64Aux n (l.drop 64)

def chunks64 (l : List Nat) : List (List Nat) := chunks64Aux l.length l

def sha256Words (msg : List Nat) : Hash8 := (chunks64 (padBytes msg)).foldl compressBlock shaH0

def hexDigit (n : Nat) : Char :=
  if n < 10 then Char.ofNat (48 + n) else Char.ofNat (87 + n)

def wordHex (w : Nat) : List Char :=
  [hexDigit (w >>> 28 &&& 15), hexDigit (w >>> 24 &&& 15), hexDigit (w >>> 20 &&& 15),
   hexDigit (w >>> 16 &&& 15), hexDigit (w >>> 12 &&& 15), hexDigit (w >>> 8 &&& 15),
   hexDigit (w >>> 4 &&& 15), hexDigit (w &&& 15)]

def hash8Hex (h : Hash8) : List Char :=
  wordHex h.a ++ wordHex h.b ++ wordHex h.c ++ wordHex h.d ++
  wordHex h.e ++ wordHex h.f ++ wordHex h.g ++ wordHex h.h

def utf8EncodeCharNat (c : Char) : List Nat :=
  let n := c.toNat
  if n < 128 then [n]
  else if n < 2048 then [192 + n / 64, 128 + n % 64]
  else if n < 65536 then [224 + n / 4096, 128 + n / 64 % 64, 128 + n % 64]
  else [240 + n / 262144, 128 + n / 4096 % 64, 128 + n / 64 % 64, 128 + n % 64]

def strBytes (s : String) : List Nat := (s.data.map utf8EncodeCharNat).flatten

/-- SHA-256 hex digest of a string, as `hashlib.sha256(s.encode()).hexdigest()`
produces it: 64 lowercase hex characters. -/
def sha256hex (s : String) : String := ⟨hash8Hex (sha256Words (strBytes s))⟩

/-! ## Python string helpers -/

/-- Model of Python `str.upper()` on its ASCII action (the subsystem only
uppercases hex identifier strings). -/
def pyUpper (s : String) : String := ⟨s.data.map Char.toUpper⟩

/-- Model of Python `str.lower()` on its ASCII action. -/
def pyLower (s : String) : String := ⟨s.data.map Char.toLower⟩

/-- Model of Python `s.replace(":", "")`: drop every colon. -/
def removeColons (s : String) : String := ⟨s.data.filter (fun c => c ≠ ':')⟩

/-- Model of the Python slice `s[a:b]` (for `a ≤ b`; clamps at the end like
Python does). -/
def strSlice (s : String) (a b : Nat) : String := ⟨(s.data.drop a).take (b - a)⟩

/-- Model of Python `str.strip()`: drop whitespace from both ends. -/
def pyStrip (s : String) : String :=
  ⟨(((s.data.dropWhile Char.isWhitespace).reverse.dropWhile Char.isWhitespace).reverse)⟩

/-! ## `app/core/mac_sniffer.py` -/

namespace MACAddressSniffer

/-- Checksum from `generate_checksum` (mac_sniffer.py:391-407):
`hashlib.sha256(f"{mac}|{user_id}|{secret_key}".encode()).hexdigest()`. -/
def generate_checksum (mac user_id secret_key : String) : String :=
  sha256hex (mac ++ "|" ++ user_id ++ "|" ++ secret_key)

/-- Identifier normalization used inline by `verify_mac`
(mac_sniffer.py:426-427): `mac.replace(":", "").upper()`. -/
def normalizeMac (s : String) : String := pyUpper (removeColons s)

/-- Verification from `verify_mac` (mac_sniffer.py:409-441): normalized
identifiers must be equal, and the checksum recomputed from the raw
`current_mac` must equal the stored checksum. -/
def verify_mac (current_mac stored_mac stored_checksum user_id secret_key : String) : Bool :=
  let current_normalized := normalizeMac current_mac
  let stored_normalized := normalizeMac stored_mac
  if current_normalized ≠ stored_normalized then false
  else
    let expected_checksum := generate_checksum current_mac user_id secret_key
    if expected_checksum ≠ stored_checksum then false
    else true

/-- Acceptance test on a candidate MAC in `_get_mac_linux_sysfs`
(mac_sniffer.py:167): `mac and re.match(r"^([0-9A-F:]{17})$", mac)` on the
already stripped and uppercased file content — exactly 17 characters, each
a digit, `A`–`F`, or a colon. -/
def isSysfsMacFormat (s : String) : Bool :=
  s.length == 17 &&
    s.data.all (fun c => ('0' ≤ c && c ≤ '9') || ('A' ≤ c && c ≤ 'F') || c == ':')

/-- Strategy `_get_mac_linux_sysfs` (mac_sniffer.py:146-178) over an explicit
filesystem state: `files` is the glob-enumerated list of
`(interface name, address-file content)` pairs that can be read (unreadable
files are skipped by the `except ... continue`), and `arpFallback` is the
value `_get_mac_linux_arp()` would return. The loop takes each content,
applies `.strip().upper()`, and returns the first one matching the
17-character pattern; the interface name is only used for logging. -/
def _get_mac_linux_sysfs (files : List (String × String)) (arpFallback : Option String) :
    Option String :=
  match files with
  | [] => arpFallback
  | (_, content) :: rest =>
    let mac := pyUpper (pyStrip content)
    if isSysfsMacFormat mac then some mac else _get_mac_linux_sysfs rest arpFallback

/-- Process environment read by `_get_mac_serverless_fallback`
(mac_sniffer.py:375-377): `hostname` is `os.getenv("HOSTNAME",
platform.node())` already resolved, the other two default to `""`. -/
structure ServerlessEnv where
  hostname : String
  vercel_deployment_id : String
  aws_lambda_function : String
deriving DecidableEq

/-- Fingerprint string built at mac_sniffer.py:379:
`f"{hostname}-{vercel_deployment_id or aws_lambda_function or 'serverless'}"`
(Python `or` takes the first non-empty string). -/
def fingerprint_base (env : ServerlessEnv) : String :=
  env.hostname ++ "-" ++
    (if env.vercel_deployment_id ≠ "" then env.vercel_deployment_id
     else if env.aws_lambda_function ≠ "" then env.aws_lambda_function
     else "serverless")

/-- Terminal fallback `_get_mac_serverless_fallback` (mac_sniffer.py:364-389):
the first 12 characters of the SHA-256 hex digest of the fingerprint string,
grouped in pairs joined by colons, uppercased. -/
def _get_mac_serverless_fallback (env : ServerlessEnv) : String :=
  let fingerprint_hash := strSlice (sha256hex (fingerprint_base env)) 0 12
  pyUpper (strSlice fingerprint_hash 0 2 ++ ":" ++ strSlice fingerprint_hash 2 4 ++ ":" ++
           strSlice fingerprint_hash 4 6 ++ ":" ++ strSlice fingerprint_hash 6 8 ++ ":" ++
           strSlice fingerprint_hash 8 10 ++ ":" ++ strSlice fingerprint_hash 10 12)

end MACAddressSniffer

/-! ## `app/core/mac_manager.py` -/

/-- One row of the `mac_address_bindings` table. Row ids are naturals here
(the store assigns fresh unique ids; the code treats them as opaque). -/
structure DeviceBinding where
  id : Nat
  user_id : String
  mac_address : String
  mac_checksum : String
  device_os : String
  device_name : String
  is_active : Bool
  verification_count : Nat
  failed_verification_count : Nat
deriving DecidableEq

/-- Outcome of a call into the external row store: either the value the
store returned, or an unexpected exception raised by the client
(an infrastructure fault). -/
inductive StoreResult (α : Type) where
  | ok (val : α)
  | fault
deriving DecidableEq

namespace MACManager

/-- Result dictionary of `MACManager.verify_mac`. -/
structure VerifyResult where
  verified : Bool
  reason : String
  message : String
deriving DecidableEq

/-- One row of the `mac_verification_log` table. -/
structure VerificationLogEntry where
  user_id : String
  binding_id : Option Nat
  mac_address : Option String
  expected_mac : Option String
  verification_status : String
  checksum_match : Bool
  ip_address : Option String
  user_agent : Option String
  error_message : Option String
deriving DecidableEq

/-- Entry built by `_log_verification` (mac_manager.py:245-268):
`verification_status` is `"success" if success else "failed"` and
`checksum_match` is the same `success` flag. The insert itself is
fire-and-forget (exceptions are swallowed), so only the entry matters. -/
def _log_verification (user_id : String) (binding_id : Option Nat)
    (mac_address expected_mac : Option String) (success : Bool)
    (ip_address user_agent error_message : Option String) : VerificationLogEntry :=
  { user_id := user_id
    binding_id := binding_id
    mac_address := mac_address
    expected_mac := expected_mac
    verification_status := if success then "success" else "failed"
    checksum_match := success
    ip_address := ip_address
    user_agent := user_agent
    error_message := error_message }

/-- `get_active_binding` (mac_manager.py:119-132): the store query for the
user's active binding, with the `except` clause that catches any store
exception and returns `None`. -/
def get_active_binding (fetch : StoreResult (Option DeviceBinding)) : Option DeviceBinding :=
  match fetch with
  | .ok b => b
  | .fault => none

/-- `MACManager.verify_mac` (mac_manager.py:134-243). Inputs: the outcome of
the active-binding store call, the MAC captured by
`MACAddressSniffer.get_system_mac()` (`none` when capture failed), the
secret key (`settings.MAC_VERIFICATION_KEY or "default-secret"`), and the
request context. Output: the result dictionary and the audit-log entry the
run writes (every path writes exactly one; counter updates do not affect
either). The function's own `except` never fires from these inputs because
every inner call already catches its exceptions. -/
def verify_mac (user_id : String) (fetch : StoreResult (Option DeviceBinding))
    (captured : Option String) (secret_key : String)
    (ip_address user_agent : Option String) : VerifyResult × VerificationLogEntry :=
  match get_active_binding fetch with
  | none =>
    (⟨false, "no_binding", "No MAC binding found for user"⟩,
     _log_verification user_id none none none false ip_address user_agent
       (some "No active binding found"))
  | some binding =>
    match captured with
    | none =>
      (⟨false, "capture_failed", "Unable to capture system MAC for verification"⟩,
       _log_verification user_id (some binding.id) none (some binding.mac_address) false
         ip_address user_agent (some "Failed to capture current MAC"))
    | some current_mac =>
      let is_valid := MACAddressSniffer.verify_mac current_mac binding.mac_address
        binding.mac_checksum user_id secret_key
      if is_valid then
        (⟨true, "success", "MAC verification successful"⟩,
         _log_verification user_id (some binding.id) (some current_mac)
           (some binding.mac_address) true ip_address user_agent none)
      else
        (⟨false, "mac_mismatch", "Device MAC address does not match recorded binding"⟩,
         _log_verification user_id (some binding.id) (some current_mac)
           (some binding.mac_address) false ip_address user_agent (some "MAC mismatch"))

/-! Binding-registry operations over a list-modelled `mac_address_bindings`
table (row order is insertion order; the store assigns fresh ids). -/

/-- The store query of `get_active_binding` against a concrete table:
`select(*).eq("user_id", user_id).eq("is_active", True).limit(1)` — the
first row of the user that is active. -/
def findActiveBinding (user_id : String) (store : List DeviceBinding) : Option DeviceBinding :=
  store.find? (fun b => b.user_id == user_id && b.is_active)

/-- Fresh row id assigned by the store on insert: strictly larger than every
id already present. -/
def freshId (store : List DeviceBinding) : Nat :=
  (store.map DeviceBinding.id).foldr max 0 + 1

/-- Registry effect of `capture_and_bind_mac` (mac_manager.py:67-90) once a
MAC and checksum have been captured: if the user has an active binding,
update that row in place (new mac/checksum/os/name, `is_active = True`);
otherwise insert a fresh active row. -/
def capture_and_bind_mac (user_id mac checksum device_os device_name : String)
    (store : List DeviceBinding) : List DeviceBinding :=
  match findActiveBinding user_id store with
  | some existing =>
    store.map (fun b =>
      if b.id == existing.id then
        { b with mac_address := mac, mac_checksum := checksum, device_os := device_os,
                 device_name := device_name, is_active := true }
      else b)
  | none =>
    store ++ [⟨freshId store, user_id, mac, checksum, device_os, device_name, true, 0, 0⟩]

/-- Registry effect of `deactivate_binding` (mac_manager.py:283-295):
`update({"is_active": False}).eq("id", binding_id)`. -/
def deactivate_binding (binding_id : Nat) (store : List DeviceBinding) : List DeviceBinding :=
  store.map (fun b => if b.id == binding_id then { b with is_active := false } else b)

/-- A non-concurrent registry operation issued for a fixed user: a completed
`capture_and_bind_mac` (a run that failed before the store write leaves the
table unchanged and is omitted), or a `deactivate_binding` of any row id. -/
inductive RegistryOp where
  | capture (mac checksum device_os device_name : String)
  | deactivate (binding_id : Nat)

def applyRegistryOp (user_id : String) (store : List DeviceBinding) (op : RegistryOp) :
    List DeviceBinding :=
  match op with
  | .capture mac checksum device_os device_name =>
    capture_and_bind_mac user_id mac checksum device_os device_name store
  | .deactivate binding_id => deactivate_binding binding_id store

def applyRegistryOps (user_id : String) (ops : List RegistryOp) (store : List DeviceBinding) :
    List DeviceBinding :=
  ops.foldl (applyRegistryOp user_id) store

/-- The user's rows with `is_active = true`. -/
def activeBindings (user_id : String) (store : List DeviceBinding) : List DeviceBinding :=
  store.filter (fun b => b.user_id == user_id && b.is_active)

end MACManager

/-! ## `app/middleware/mac_verification.py` -/

def SENSITIVE_ROUTES : List String :=
  ["/api/v1/chat/", "/api/v1/training/", "/api/v1/subscriptions/", "/api/v1/admin/"]

/-- Model of Python `path.startswith(route)`. -/
def strStartsWith (s pat : String) : Bool := pat.data.isPrefixOf s.data

/-- Sensitive-path test of the middleware (mac_verification.py:41):
`any(path.startswith(route) for route in SENSITIVE_ROUTES)`. -/
def isSensitivePath (path : String) : Bool :=
  SENSITIVE_ROUTES.any (fun route => strStartsWith path route)

/-- The request data the middleware dispatch consults: whether the `VERCEL`
environment variable is truthy, the method and path, `request.state.user_id`
(no code in the repository ever sets it, so in a running app it is `None`),
and the user id that `get_current_user_id_from_request` resolves from the
bearer token (`none` covers a missing/invalid token and any exception that
helper swallowed). -/
structure GateRequest where
  vercel_env : Bool
  method : String
  path : String
  state_user_id : Option String
  bearer_user_id : Option String

/-- Terminal responses of the middleware: forward to `call_next`, the 403
device-verification rejection, or the 500 service-error response of the
outer `except`. -/
inductive GateResponse where
  | forwarded
  | forbidden403
  | serviceError500
deriving DecidableEq

/-- Identity resolution inside the dispatch (mac_verification.py:50-64):
`request.state.user_id`, else the bearer token. -/
def resolveUserId (r : GateRequest) : Option String :=
  match r.state_user_id with
  | some u => some u
  | none => r.bearer_user_id

/-- `MACVerificationMiddleware.dispatch` (mac_verification.py:26-94), with
the verification engine passed as a function. Returns the response together
with whether `MACManager.verify_mac` was invoked. The modelled store faults
never raise out of `MACManager.verify_mac`, so the 500 branch of the outer
`except` is unreachable from these inputs. -/
def dispatch (r : GateRequest) (verify : String → MACManager.VerifyResult) :
    GateResponse × Bool :=
  if r.vercel_env then (.forwarded, false)
  else if r.method == "OPTIONS" then (.forwarded, false)
  else if !isSensitivePath r.path then (.forwarded, false)
  else
    match resolveUserId r with
    | none => (.forwarded, false)
    | some user_id =>
      let verification := verify user_id
      if !verification.verified then (.forbidden403, true)
      else (.forwarded, true)

/-- The dispatch wired to the real manager verification, with the store and
capture outcomes as explicit inputs. -/
def dispatchWithManager (r : GateRequest) (fetch : StoreResult (Option DeviceBinding))
    (captured : Option String) (secret_key : String) : GateResponse × Bool :=
  dispatch r (fun user_id =>
    (MACManager.verify_mac user_id fetch captured secret_key none none).1)

/-! ## Proof-infrastructure definitions -/

/-- Characters a SHA-256 hex digest is made of: a decimal digit or a
lowercase `a`–`f`. -/
abbrev isLowerHexChar (c : Char) : Prop :=
  (48 ≤ c.toNat ∧ c.toNat ≤ 57) ∨ (97 ≤ c.toNat ∧ c.toNat ≤ 102)

/-- Invariant of the binding registry for one user: row ids are pairwise
distinct (the store's primary key), and the user has at most one active
row. -/
def RegInv (user_id : String) (store : List DeviceBinding) : Prop :=
  (store.map DeviceBinding.id).Nodup ∧
    (MACManager.activeBindings user_id store).length ≤ 1

/-- Inverse of the fallback's rendering: drop colons, lowercase. Used to
show the rendering is injective on hex digests. -/
def unrenderMac (s : String) : String := pyLower ⟨s.data.filter (fun c => c ≠ ':')⟩

/-! ## Character-level helper lemmas -/

theorem charToNat_ofNat {n : Nat} (h : n < 55296) : (Char.ofNat n).toNat = n := by
  have hv : n.isValidChar := Or.inl h
  rw [Char.ofNat, dif_pos hv]
  rfl

theorem char_eq_iff_toNat {c d : Char} : c = d ↔ c.toNat = d.toNat := by
  constructor
  · rintro rfl; rfl
  · intro h
    exact Char.eq_of_val_eq (UInt32.toNat.inj h)

theorem toUpper_toNat (c : Char) :
    (Char.toUpper c).toNat =
      if 97 ≤ c.toNat ∧ c.toNat ≤ 122 then c.toNat - 32 else c.toNat := by
  rw [Char.toUpper]
  split
  · next h => exact charToNat_ofNat (by omega)
  · next h => rfl

theorem toLower_toNat (c : Char) :
    (Char.toLower c).toNat =
      if 65 ≤ c.toNat ∧ c.toNat ≤ 90 then c.toNat + 32 else c.toNat := by
  rw [Char.toLower]
  split
  · next h => exact charToNat_ofNat (by omega)
  · next h => rfl

theorem toUpper_idem (c : Char) : Char.toUpper (Char.toUpper c) = Char.toUpper c := by
  rw [char_eq_iff_toNat]
  simp only [toUpper_toNat]
  split_ifs <;> omega

theorem toUpper_eq_colon_iff (c : Char) : Char.toUpper c = ':' ↔ c = ':' := by
  rw [char_eq_iff_toNat, char_eq_iff_toNat, toUpper_toNat]
  have h58 : (':' : Char).toNat = 58 := by decide
  rw [h58]
  split_ifs <;> omega

theorem toLower_toUpper_hex {c : Char} (h : isLowerHexChar c) :
    Char.toLower (Char.toUpper c) = c := by
  rw [char_eq_iff_toNat, toLower_toNat, toUpper_toNat]
  rcases h with h | h <;> split_ifs <;> omega

theorem hex_ne_colon {c : Char} (h : isLowerHexChar c) : c ≠ ':' := by
  rw [Ne, char_eq_iff_toNat]
  have h58 : (':' : Char).toNat = 58 := by decide
  rw [h58]
  rcases h with h | h <;> omega

/-! ## Normalization lemmas -/

theorem normalizeMac_idem (x : String) :
    MACAddressSniffer.normalizeMac (MACAddressSniffer.normalizeMac x) =
      MACAddressSniffer.normalizeMac x := by
  show String.mk _ = String.mk _
  apply congrArg String.mk
  show (((x.data.filter _).map Char.toUpper).filter _).map Char.toUpper =
    (x.data.filter _).map Char.toUpper
  have hcomp : Char.toUpper ∘ Char.toUpper = Char.toUpper := funext toUpper_idem
  rw [List.filter_map, List.map_map, hcomp, List.filter_filter]
  congr 1
  apply List.filter_congr
  intro c _
  by_cases hc : c = ':'
  · simp [hc]
  · simp [hc, Function.comp, toUpper_eq_colon_iff]

/-- C6: the identifier normalization used by `verify_mac` is idempotent and
case/colon-insensitive, but it strips only colons, so the hyphen-delimited
form produced by the Windows capture path does not normalize equal to the
colon-delimited form. -/
theorem normalizeMac_spec :
    (∀ x : String, MACAddressSniffer.normalizeMac (MACAddressSniffer.normalizeMac x) =
        MACAddressSniffer.normalizeMac x)
    ∧ MACAddressSniffer.normalizeMac "AA:BB:CC:DD:EE:FF" =
        MACAddressSniffer.normalizeMac "aabbccddeeff"
    ∧ MACAddressSniffer.normalizeMac "AA-BB-CC-DD-EE-FF" ≠
        MACAddressSniffer.normalizeMac "AA:BB:CC:DD:EE:FF" :=
  ⟨normalizeMac_idem, by decide, by decide⟩

/-- C6 counterexample: the hyphen-delimited form of an address does not
normalize equal to the colon-delimited form, because the normalization
strips only colons (`mac.replace(":", "").upper()`). -/
theorem normalizeMac_hyphen_counterexample :
    MACAddressSniffer.normalizeMac "AA-BB-CC-DD-EE-FF" ≠
      MACAddressSniffer.normalizeMac "AA:BB:CC:DD:EE:FF" := by decide

/-- C1: `MACAddressSniffer.verify_mac` returns true iff the two identifiers
are equal after colon-stripping-and-uppercasing normalization and the
checksum recomputed from the raw current identifier with the same user id
and secret equals the stored checksum. -/
theorem verify_mac_iff (current stored ck uid key : String) :
    MACAddressSniffer.verify_mac current stored ck uid key = true ↔
      (MACAddressSniffer.normalizeMac current = MACAddressSniffer.normalizeMac stored ∧
       MACAddressSniffer.generate_checksum current uid key = ck) := by
  unfold MACAddressSniffer.verify_mac
  dsimp only
  split_ifs with h1 h2 <;> simp_all

/-- C5 (amended): recomputing the checksum from the current identifier agrees
with the stored checksum whenever the identifiers normalize equal AND the
raw identifiers produce the same checksum (in particular whenever the raw
strings are equal); `verify_mac` then returns true. -/
theorem verify_recompute_from_stored (current stored uid key : String)
    (h1 : MACAddressSniffer.normalizeMac current = MACAddressSniffer.normalizeMac stored)
    (h2 : MACAddressSniffer.generate_checksum current uid key =
          MACAddressSniffer.generate_checksum stored uid key) :
    MACAddressSniffer.verify_mac current stored
      (MACAddressSniffer.generate_checksum stored uid key) uid key = true := by
  unfold MACAddressSniffer.verify_mac
  dsimp only
  rw [if_neg (by simp [h1]), if_neg (by simp [h2])]

theorem verify_recompute_from_stored_witness :
    MACAddressSniffer.verify_mac "AA:BB:CC:DD:EE:FF" "AA:BB:CC:DD:EE:FF"
      (MACAddressSniffer.generate_checksum "AA:BB:CC:DD:EE:FF" "u" "k") "u" "k" = true :=
  verify_recompute_from_stored "AA:BB:CC:DD:EE:FF" "AA:BB:CC:DD:EE:FF" "u" "k" rfl rfl

/-- C5 counterexample: two identifiers that normalize equal but differ as raw
strings (lowercase vs uppercase); the checksum recomputed from the raw
current identifier differs from the one computed from the stored identifier,
so `verify_mac` returns false even though step 1 passed. -/
theorem verify_recompute_counterexample :
    MACAddressSniffer.normalizeMac "aa:bb:cc:dd:ee:ff" =
      MACAddressSniffer.normalizeMac "AA:BB:CC:DD:EE:FF" ∧
    MACAddressSniffer.verify_mac "aa:bb:cc:dd:ee:ff" "AA:BB:CC:DD:EE:FF"
      (MACAddressSniffer.generate_checksum "AA:BB:CC:DD:EE:FF" "u" "k") "u" "k" = false :=
  ⟨by decide, by decide⟩

/-- C4 counterexample: a `/sys/class/net` state whose only (and first)
enumerated address file belongs to the loopback interface `lo` with the
all-zeros address; the sysfs strategy returns that loopback address instead
of skipping it. -/
theorem sysfs_loopback_counterexample :
    MACAddressSniffer._get_mac_linux_sysfs [("lo", "00:00:00:00:00:00\n")] none =
      some "00:00:00:00:00:00" := by decide

/-- C4 (amended): the sysfs cascade strategy never inspects the interface
name at all — it returns the stripped, uppercased content of the first
enumerated address file that matches the 17-character `[0-9A-F:]` pattern,
the loopback interface included. -/
theorem sysfs_returns_first_match (name content : String)
    (rest : List (String × String)) (arpFallback : Option String)
    (h : MACAddressSniffer.isSysfsMacFormat (pyUpper (pyStrip content)) = true) :
    MACAddressSniffer._get_mac_linux_sysfs ((name, content) :: rest) arpFallback =
      some (pyUpper (pyStrip content)) := by
  unfold MACAddressSniffer._get_mac_linux_sysfs
  rw [if_pos h]

theorem sysfs_returns_first_match_witness :
    MACAddressSniffer._get_mac_linux_sysfs
        [("lo", "00:00:00:00:00:00\n"), ("eth0", "aa:bb:cc:dd:ee:ff\n")] none =
      some (pyUpper (pyStrip "00:00:00:00:00:00\n")) :=
  sysfs_returns_first_match "lo" "00:00:00:00:00:00\n"
    [("eth0", "aa:bb:cc:dd:ee:ff\n")] none (by decide)

/-! ## Enforcement-gate lemmas -/

theorem isPrefixOf_self_append (a b : List Char) : a.isPrefixOf (a ++ b) = true := by
  induction a with
  | nil => simp [List.isPrefixOf]
  | cons c t ih => simp [List.isPrefixOf, ih]

theorem strStartsWith_self_append (p rest : String) : strStartsWith (p ++ rest) p = true := by
  unfold strStartsWith
  rw [String.data_append]
  exact isPrefixOf_self_append p.data rest.data

/-- C10: sensitive-path membership is a pure string-prefix test against
routes that all end in a trailing slash, so the exact slash-less paths
`/api/v1/admin`, `/api/v1/subscriptions`, `/api/v1/chat` and
`/api/v1/training` are classified non-sensitive and the dispatch forwards
them without invoking verification, while every extension of one of the
slash-terminated routes is classified sensitive. -/
theorem sensitive_route_boundary :
    (isSensitivePath "/api/v1/admin" = false ∧
     isSensitivePath "/api/v1/subscriptions" = false ∧
     isSensitivePath "/api/v1/chat" = false ∧
     isSensitivePath "/api/v1/training" = false) ∧
    (∀ st bt (verify : String → MACManager.VerifyResult),
      (dispatch ⟨false, "GET", "/api/v1/admin", st, bt⟩ verify = (.forwarded, false)) ∧
      (dispatch ⟨false, "GET", "/api/v1/subscriptions", st, bt⟩ verify = (.forwarded, false)) ∧
      (dispatch ⟨false, "GET", "/api/v1/chat", st, bt⟩ verify = (.forwarded, false)) ∧
      (dispatch ⟨false, "GET", "/api/v1/training", st, bt⟩ verify = (.forwarded, false))) ∧
    (∀ rest : String,
      isSensitivePath ("/api/v1/admin/" ++ rest) = true ∧
      isSensitivePath ("/api/v1/subscriptions/" ++ rest) = true ∧
      isSensitivePath ("/api/v1/chat/" ++ rest) = true ∧
      isSensitivePath ("/api/v1/training/" ++ rest) = true) := by
  refine ⟨⟨by decide, by decide, by decide, by decide⟩, ?_, ?_⟩
  · intro st bt verify
    refine ⟨?_, ?_, ?_, ?_⟩ <;> simp [dispatch, isSensitivePath, SENSITIVE_ROUTES, strStartsWith]
  · intro rest
    refine ⟨?_, ?_, ?_, ?_⟩ <;>
      simp [isSensitivePath, SENSITIVE_ROUTES, strStartsWith_self_append]

/-- C7: whenever the `VERCEL` environment flag is set, or the method is
`OPTIONS`, or the path is not in the sensitive set, or no user id is
resolvable from the request, the middleware dispatch forwards the request
without invoking `MACManager.verify_mac`. -/
theorem gate_bypass (r : GateRequest) (verify : String → MACManager.VerifyResult)
    (h : r.vercel_env = true ∨ r.method = "OPTIONS" ∨ isSensitivePath r.path = false ∨
         resolveUserId r = none) :
    dispatch r verify = (.forwarded, false) := by
  unfold dispatch
  rcases h with h | h | h | h
  · simp [h]
  · rcases hv : r.vercel_env <;> simp [h, hv]
  · rcases hv : r.vercel_env <;> rcases hm : r.method == "OPTIONS" <;> simp [h, hv, hm]
  · rcases hv : r.vercel_env <;> rcases hm : r.method == "OPTIONS" <;>
      rcases hs : isSensitivePath r.path <;> simp [h, hv, hm, hs]

theorem gate_bypass_witness :
    dispatch ⟨false, "OPTIONS", "/api/v1/chat/send", none, some "user-1"⟩
      (fun _ => ⟨false, "mac_mismatch", "Device MAC address does not match recorded binding"⟩) =
      (.forwarded, false) :=
  gate_bypass _ _ (Or.inr (Or.inl rfl))

/-- C3 counterexample: a sensitive GET request with a resolvable user whose
active-binding store call raises (an infrastructure fault); the fault is
swallowed inside `get_active_binding`, the manager returns the business
outcome `no_binding`, and the gate answers 403 — not a 5xx service error. -/
theorem store_fault_counterexample :
    dispatchWithManager ⟨false, "GET", "/api/v1/chat/send", none, some "user-1"⟩
        StoreResult.fault (some "AA:BB:CC:DD:EE:FF") "secret" = (.forbidden403, true) ∧
    (MACManager.verify_mac "user-1" StoreResult.fault (some "AA:BB:CC:DD:EE:FF") "secret"
        none none).1 =
      ⟨false, "no_binding", "No MAC binding found for user"⟩ := by
  constructor <;> rfl

/-- C3 (amended): an infrastructure fault in the active-binding store call is
caught inside `get_active_binding` and mapped to `None`, so for every
sensitive request that reaches verification the caller receives the
structured business outcome `no_binding` with a 403 response; the modelled
store fault never surfaces as a 5xx service error. -/
theorem store_fault_yields_403 (r : GateRequest) (captured : Option String)
    (secret_key uid : String)
    (hv : r.vercel_env = false) (hm : (r.method == "OPTIONS") = false)
    (hs : isSensitivePath r.path = true) (hu : resolveUserId r = some uid) :
    dispatchWithManager r StoreResult.fault captured secret_key = (.forbidden403, true) ∧
    (MACManager.verify_mac uid StoreResult.fault captured secret_key none none).1.reason =
      "no_binding" := by
  constructor
  · unfold dispatchWithManager dispatch
    rw [hv, hu]
    simp [hm, hs, MACManager.verify_mac, MACManager.get_active_binding]
  · rfl

theorem store_fault_yields_403_witness :
    dispatchWithManager ⟨false, "POST", "/api/v1/training/run", none, some "u7"⟩
        StoreResult.fault none "k" = (.forbidden403, true) ∧
    (MACManager.verify_mac "u7" StoreResult.fault none "k" none none).1.reason =
      "no_binding" :=
  store_fault_yields_403 ⟨false, "POST", "/api/v1/training/run", none, some "u7"⟩
    none "k" "u7" rfl rfl (by decide) rfl

/-- C9: every audit-log entry built by `_log_verification` sets
`checksum_match` exactly to whether `verification_status` is `"success"`;
in particular the entries for the `no_binding` and `capture_failed`
outcomes record `checksum_match = false` even though no checksum was
compared. -/
theorem log_checksum_match :
    (∀ (u : String) (bid : Option Nat) (mac expected : Option String) (success : Bool)
        (ip ua err : Option String),
      (MACManager._log_verification u bid mac expected success ip ua err).checksum_match =
        ((MACManager._log_verification u bid mac expected success ip ua
            err).verification_status == "success"))
    ∧ (∀ (u secret_key : String) (fetch : StoreResult (Option DeviceBinding))
        (captured : Option String) (ip ua : Option String),
      ((MACManager.verify_mac u fetch captured secret_key ip ua).1.reason = "no_binding" ∨
       (MACManager.verify_mac u fetch captured secret_key ip ua).1.reason = "capture_failed") →
      (MACManager.verify_mac u fetch captured secret_key ip ua).2.checksum_match = false) := by
  constructor
  · intro u bid mac expected success ip ua err
    cases success <;> rfl
  · intro u secret_key fetch captured ip ua h
    rcases fetch with bopt | _
    · rcases bopt with _ | binding
      · rfl
      · rcases captured with _ | mac
        · rfl
        · unfold MACManager.verify_mac at h ⊢
          dsimp only [MACManager.get_active_binding] at h ⊢
          rcases hiv : MACAddressSniffer.verify_mac mac binding.mac_address binding.mac_checksum
              u secret_key
          · rfl
          · rw [hiv] at h
            simp at h
    · rfl

theorem log_checksum_match_witness :
    (MACManager.verify_mac "u9" (StoreResult.ok none) none "k" none none).2.checksum_match =
      false :=
  log_checksum_match.2 "u9" "k" (StoreResult.ok none) none none none (Or.inl rfl)

/-! ## Binding-registry invariant lemmas -/

theorem mem_le_foldr_max (l : List Nat) (x : Nat) (hx : x ∈ l) : x ≤ l.foldr max 0 := by
  induction l with
  | nil => cases hx
  | cons a t ih =>
    rcases List.mem_cons.mp hx with rfl | hm
    · exact Nat.le_max_left _ _
    · exact Nat.le_trans (ih hm) (Nat.le_max_right _ _)

theorem freshId_not_mem (store : List DeviceBinding) :
    MACManager.freshId store ∉ store.map DeviceBinding.id := by
  intro hmem
  have hle := mem_le_foldr_max _ _ hmem
  unfold MACManager.freshId at hle
  omega

theorem filter_map_length_le {α : Type} (p : α → Bool) (f : α → α) (s : List α)
    (hpf : ∀ b ∈ s, p (f b) = true → p b = true) :
    ((s.map f).filter p).length ≤ (s.filter p).length := by
  induction s with
  | nil => simp
  | cons a t ih =>
    have iht := ih fun b hb => hpf b (List.mem_cons_of_mem _ hb)
    rcases hfa : p (f a)
    · rcases hpa : p a <;> simp [List.filter_cons, hfa, hpa] <;> omega
    · have hpa := hpf a (List.mem_cons_self a t) hfa
      simp [List.filter_cons, hfa, hpa]
      omega

theorem filter_map_length_eq {α : Type} (p : α → Bool) (f : α → α) (s : List α)
    (hpf : ∀ b ∈ s, p (f b) = p b) :
    ((s.map f).filter p).length = (s.filter p).length := by
  induction s with
  | nil => simp
  | cons a t ih =>
    have iht := ih fun b hb => hpf b (List.mem_cons_of_mem _ hb)
    have hfa := hpf a (List.mem_cons_self a t)
    rcases hq : p a <;> rw [hq] at hfa <;> simp [List.filter_cons, hfa, hq, iht]

theorem regInv_applyOp (u : String) (s : List DeviceBinding) (op : MACManager.RegistryOp)
    (h : RegInv u s) : RegInv u (MACManager.applyRegistryOp u s op) := by
  obtain ⟨hnd, hcnt⟩ := h
  rcases op with ⟨mac, ck, dos, dname⟩ | ⟨bid⟩
  · show RegInv u (MACManager.capture_and_bind_mac u mac ck dos dname s)
    unfold MACManager.capture_and_bind_mac
    rcases hfind : MACManager.findActiveBinding u s with _ | existing
    · constructor
      · rw [List.map_append, List.nodup_append]
        refine ⟨hnd, by simp, ?_⟩
        intro a ha hb
        simp only [List.map_cons, List.map_nil, List.mem_singleton] at hb
        subst hb
        exact freshId_not_mem s ha
      · unfold MACManager.activeBindings at hcnt ⊢
        rw [List.filter_append]
        unfold MACManager.findActiveBinding at hfind
        have hnil : s.filter (fun b => b.user_id == u && b.is_active) = [] :=
          List.filter_eq_nil_iff.mpr (List.find?_eq_none.mp hfind)
        rw [hnil]
        simp
    · unfold MACManager.findActiveBinding at hfind
      have hpe := List.find?_some hfind
      have hmem := List.mem_of_find?_eq_some hfind
      constructor
      · rw [List.map_map]
        have hids : (DeviceBinding.id ∘ fun b =>
            if b.id == existing.id then
              { b with mac_address := mac, mac_checksum := ck, device_os := dos,
                       device_name := dname, is_active := true }
            else b) = DeviceBinding.id := by
          funext b
          show (if b.id == existing.id then _ else b).id = b.id
          split <;> rfl
        rw [hids]
        exact hnd
      · unfold MACManager.activeBindings at hcnt ⊢
        rw [filter_map_length_eq]
        · exact hcnt
        · intro b hb
          by_cases hbid : (b.id == existing.id) = true
          · have hbeq : b = existing :=
              List.inj_on_of_nodup_map hnd hb hmem (beq_iff_eq.mp hbid)
            subst hbeq
            rw [if_pos hbid]
            simp only [Bool.and_eq_true] at hpe
            obtain ⟨h1, h2⟩ := hpe
            simp [h1, h2]
          · rw [if_neg hbid]
  · show RegInv u (MACManager.deactivate_binding bid s)
    unfold MACManager.deactivate_binding
    constructor
    · rw [List.map_map]
      have hids : (DeviceBinding.id ∘ fun b =>
          if b.id == bid then { b with is_active := false } else b) = DeviceBinding.id := by
        funext b
        show (if b.id == bid then _ else b).id = b.id
        split <;> rfl
      rw [hids]
      exact hnd
    · unfold MACManager.activeBindings at hcnt ⊢
      refine Nat.le_trans (filter_map_length_le _ _ s ?_) hcnt
      intro b hb hpf
      by_cases hbid : (b.id == bid) = true
      · rw [if_pos hbid] at hpf
        simp at hpf
      · rw [if_neg hbid] at hpf
        exact hpf

theorem regInv_applyOps (u : String) (ops : List MACManager.RegistryOp)
    (s : List DeviceBinding) (h : RegInv u s) :
    RegInv u (MACManager.applyRegistryOps u ops s) := by
  induction ops generalizing s with
  | nil => exact h
  | cons op rest ih =>
    show RegInv u (MACManager.applyRegistryOps u rest (MACManager.applyRegistryOp u s op))
    exact ih _ (regInv_applyOp u s op h)

/-- C2: for every user, starting from a store with unique row ids and no
rows for that user, any sequence of non-concurrent `capture_and_bind_mac`
and `deactivate_binding` operations leaves at most one binding row with
`is_active = true` for that user: capture updates the existing active row
in place when one exists and inserts a fresh active row otherwise, and
deactivate only clears `is_active`. -/
theorem at_most_one_active_binding (user_id : String) (ops : List MACManager.RegistryOp)
    (s0 : List DeviceBinding)
    (hids : (s0.map DeviceBinding.id).Nodup)
    (hnone : ∀ b ∈ s0, b.user_id ≠ user_id) :
    (MACManager.activeBindings user_id
        (MACManager.applyRegistryOps user_id ops s0)).length ≤ 1 := by
  have h0 : RegInv user_id s0 := by
    refine ⟨hids, ?_⟩
    unfold MACManager.activeBindings
    have hnil : s0.filter (fun b => b.user_id == user_id && b.is_active) = [] := by
      rw [List.filter_eq_nil_iff]
      intro b hb
      simp [hnone b hb]
    simp [hnil]
  exact (regInv_applyOps user_id ops s0 h0).2

theorem at_most_one_active_binding_witness :
    (MACManager.activeBindings "u1"
        (MACManager.applyRegistryOps "u1"
          [MACManager.RegistryOp.capture "AA:BB:CC:DD:EE:FF" "ck" "Linux" "host",
           MACManager.RegistryOp.deactivate 1,
           MACManager.RegistryOp.capture "11:22:33:44:55:66" "ck2" "Linux" "host"]
          [])).length ≤ 1 :=
  at_most_one_active_binding "u1" _ [] (by simp) (by simp)

/-! ## Serverless-fallback lemmas -/

theorem toUpper_hex_ne_colon {c : Char} (h : isLowerHexChar c) : Char.toUpper c ≠ ':' :=
  fun hc => hex_ne_colon h ((toUpper_eq_colon_iff c).mp hc)

theorem hexDigit_isLowerHex (n : Nat) (h : n ≤ 15) : isLowerHexChar (hexDigit n) := by
  interval_cases n <;> decide

theorem wordHex_mem_hex (w : Nat) (c : Char) (hc : c ∈ wordHex w) : isLowerHexChar c := by
  simp only [wordHex, List.mem_cons, List.not_mem_nil, or_false] at hc
  rcases hc with rfl | rfl | rfl | rfl | rfl | rfl | rfl | rfl <;>
    exact hexDigit_isLowerHex _ Nat.and_le_right

theorem sha256hex_mem_hex (s : String) (c : Char) (hc : c ∈ (sha256hex s).data) :
    isLowerHexChar c := by
  have hc2 : c ∈ hash8Hex (sha256Words (strBytes s)) := hc
  simp only [hash8Hex, List.mem_append] at hc2
  rcases hc2 with ((((((h | h) | h) | h) | h) | h) | h) | h <;> exact wordHex_mem_hex _ c h

theorem sha256hex_length (s : String) : (sha256hex s).data.length = 64 := by
  show (hash8Hex (sha256Words (strBytes s))).length = 64
  simp [hash8Hex, wordHex]

theorem fallback_data (e : MACAddressSniffer.ServerlessEnv) :
    (MACAddressSniffer._get_mac_serverless_fallback e).data =
      (((sha256hex (MACAddressSniffer.fingerprint_base e)).data.take 12).take 2 ++ [':'] ++
       (((sha256hex (MACAddressSniffer.fingerprint_base e)).data.take 12).drop 2).take 2 ++ [':'] ++
       (((sha256hex (MACAddressSniffer.fingerprint_base e)).data.take 12).drop 4).take 2 ++ [':'] ++
       (((sha256hex (MACAddressSniffer.fingerprint_base e)).data.take 12).drop 6).take 2 ++ [':'] ++
       (((sha256hex (MACAddressSniffer.fingerprint_base e)).data.take 12).drop 8).take 2 ++ [':'] ++
       (((sha256hex (MACAddressSniffer.fingerprint_base e)).data.take 12).drop 10).take 2).map
        Char.toUpper := by
  have hcolon : (":" : String).data = [':'] := rfl
  unfold MACAddressSniffer._get_mac_serverless_fallback pyUpper strSlice
  simp [String.data_append, hcolon, List.append_assoc]

theorem unrender_chain (T : List Char) (hlen : T.length = 12)
    (hhex : ∀ c ∈ T, isLowerHexChar c) :
    (((T.take 2 ++ [':'] ++ (T.drop 2).take 2 ++ [':'] ++ (T.drop 4).take 2 ++ [':'] ++
       (T.drop 6).take 2 ++ [':'] ++ (T.drop 8).take 2 ++ [':'] ++
       (T.drop 10).take 2).map Char.toUpper).filter (fun c => c ≠ ':')).map Char.toLower = T := by
  rcases T with _ | ⟨c0, T⟩; · simp at hlen
  rcases T with _ | ⟨c1, T⟩; · simp at hlen
  rcases T with _ | ⟨c2, T⟩; · simp at hlen
  rcases T with _ | ⟨c3, T⟩; · simp at hlen
  rcases T with _ | ⟨c4, T⟩; · simp at hlen
  rcases T with _ | ⟨c5, T⟩; · simp at hlen
  rcases T with _ | ⟨c6, T⟩; · simp at hlen
  rcases T with _ | ⟨c7, T⟩; · simp at hlen
  rcases T with _ | ⟨c8, T⟩; · simp at hlen
  rcases T with _ | ⟨c9, T⟩; · simp at hlen
  rcases T with _ | ⟨c10, T⟩; · simp at hlen
  rcases T with _ | ⟨c11, T⟩; · simp at hlen
  rcases T with _ | ⟨c12, T⟩
  case cons.cons => simp at hlen
  have h0 : isLowerHexChar c0 := hhex c0 (by simp)
  have h1 : isLowerHexChar c1 := hhex c1 (by simp)
  have h2 : isLowerHexChar c2 := hhex c2 (by simp)
  have h3 : isLowerHexChar c3 := hhex c3 (by simp)
  have h4 : isLowerHexChar c4 := hhex c4 (by simp)
  have h5 : isLowerHexChar c5 := hhex c5 (by simp)
  have h6 : isLowerHexChar c6 := hhex c6 (by simp)
  have h7 : isLowerHexChar c7 := hhex c7 (by simp)
  have h8 : isLowerHexChar c8 := hhex c8 (by simp)
  have h9 : isLowerHexChar c9 := hhex c9 (by simp)
  have h10 : isLowerHexChar c10 := hhex c10 (by simp)
  have h11 : isLowerHexChar c11 := hhex c11 (by simp)
  have hcolon : Char.toUpper ':' = ':' := by decide
  simp [List.filter_cons, hcolon,
    toUpper_hex_ne_colon h0, toUpper_hex_ne_colon h1, toUpper_hex_ne_colon h2,
    toUpper_hex_ne_colon h3, toUpper_hex_ne_colon h4, toUpper_hex_ne_colon h5,
    toUpper_hex_ne_colon h6, toUpper_hex_ne_colon h7, toUpper_hex_ne_colon h8,
    toUpper_hex_ne_colon h9, toUpper_hex_ne_colon h10, toUpper_hex_ne_colon h11,
    toLower_toUpper_hex h0, toLower_toUpper_hex h1, toLower_toUpper_hex h2,
    toLower_toUpper_hex h3, toLower_toUpper_hex h4, toLower_toUpper_hex h5,
    toLower_toUpper_hex h6, toLower_toUpper_hex h7, toLower_toUpper_hex h8,
    toLower_toUpper_hex h9, toLower_toUpper_hex h10, toLower_toUpper_hex h11]

theorem unrenderMac_data (s : String) :
    (unrenderMac s).data = (s.data.filter (fun c => c ≠ ':')).map Char.toLower := rfl

theorem strSlice_data (s : String) (a b : Nat) :
    (strSlice s a b).data = (s.data.drop a).take (b - a) := rfl

theorem unrender_fallback (e : MACAddressSniffer.ServerlessEnv) :
    unrenderMac (MACAddressSniffer._get_mac_serverless_fallback e) =
      strSlice (sha256hex (MACAddressSniffer.fingerprint_base e)) 0 12 := by
  apply String.ext
  rw [unrenderMac_data, strSlice_data, Nat.sub_zero, List.drop_zero, fallback_data e]
  refine unrender_chain _ ?_ (fun c hc => sha256hex_mem_hex _ c (List.take_subset _ _ hc))
  have h64 : (sha256hex (MACAddressSniffer.fingerprint_base e)).length = 64 :=
    sha256hex_length _
  simp [h64]

theorem fallback_length (e : MACAddressSniffer.ServerlessEnv) :
    (MACAddressSniffer._get_mac_serverless_fallback e).data.length = 17 := by
  have h64 : (sha256hex (MACAddressSniffer.fingerprint_base e)).data.length = 64 :=
    sha256hex_length _
  rw [fallback_data e]
  simp [List.length_append, List.length_take, List.length_drop, h64]

/-- C8: the terminal environment-fingerprint fallback is a deterministic
function of the fingerprint string (host name plus deployment identifier):
equal fingerprints give equal values; the value is a 17-character rendering
(six colon-separated uppercased octets) of the first 12 hex characters of
the SHA-256 digest of the fingerprint string; and environments whose
truncated digests differ yield different values. -/
theorem serverless_fallback_spec (e1 e2 : MACAddressSniffer.ServerlessEnv) :
    (MACAddressSniffer.fingerprint_base e1 = MACAddressSniffer.fingerprint_base e2 →
      MACAddressSniffer._get_mac_serverless_fallback e1 =
        MACAddressSniffer._get_mac_serverless_fallback e2)
    ∧ unrenderMac (MACAddressSniffer._get_mac_serverless_fallback e1) =
        strSlice (sha256hex (MACAddressSniffer.fingerprint_base e1)) 0 12
    ∧ (MACAddressSniffer._get_mac_serverless_fallback e1).data.length = 17
    ∧ (strSlice (sha256hex (MACAddressSniffer.fingerprint_base e1)) 0 12 ≠
        strSlice (sha256hex (MACAddressSniffer.fingerprint_base e2)) 0 12 →
        MACAddressSniffer._get_mac_serverless_fallback e1 ≠
          MACAddressSniffer._get_mac_serverless_fallback e2) := by
  refine ⟨?_, unrender_fallback e1, fallback_length e1, ?_⟩
  · intro h
    unfold MACAddressSniffer._get_mac_serverless_fallback
    rw [h]
  · intro hne heq
    apply hne
    have hcongr := congrArg unrenderMac heq
    rwa [unrender_fallback, unrender_fallback] at hcongr

theorem serverless_fallback_spec_witness :
    (MACAddressSniffer._get_mac_serverless_fallback ⟨"host-a", "", ""⟩).data.length = 17 ∧
    MACAddressSniffer._get_mac_serverless_fallback ⟨"host-a", "", ""⟩ ≠
      MACAddressSniffer._get_mac_serverless_fallback ⟨"host-b", "", ""⟩ :=
  ⟨(serverless_fallback_spec ⟨"host-a", "", ""⟩ ⟨"host-b", "", ""⟩).2.2.1,
   (serverless_fallback_spec ⟨"host-a", "", ""⟩ ⟨"host-b", "", ""⟩).2.2.2 (by decide)⟩
